import Mathlib

/-!
Verification development for the zotero-mcp dual-backend data-access layer.

The TypeScript sources are shallowly embedded: each backend method becomes a
pure Lean function over an explicit state (the local SQLite database contents,
or an abstract HTTP server modelled as a function from requests to responses).
JavaScript peculiarities that the code relies on (falsy `||` defaulting,
`String.includes`, `Map` semantics, `Date.now()` passed as an explicit clock)
are embedded by small helper functions named `js...`.
-/

namespace ZoteroMCP

/-! ## JavaScript semantics helpers -/

/-- JS `opt || dflt` for numbers: `undefined`/`null`/`0`/`NaN` are falsy. -/
def jsOrNat : Option Nat → Nat → Nat
  | some n, d => if n == 0 then d else n
  | none, d => d

/-- JS `opt || dflt` for strings: `undefined`/`null`/`""` are falsy. -/
def jsOrStr : Option String → String → String
  | some s, d => if s == "" then d else s
  | none, d => d

/-- JS truthiness of an optional string. -/
def jsTruthyStr : Option String → Bool
  | some s => s != ""
  | none => false

/-- JS `x || undefined` for an optional string: an empty string collapses to absent. -/
def jsUndefIfFalsy (o : Option String) : Option String :=
  if jsTruthyStr o then o else none

/-- JS `String.prototype.includes`: substring containment, embedded as list infix. -/
def jsIncludes (s pat : String) : Bool :=
  decide (pat.data <:+: s.data)

/-- JS template-literal interpolation of a possibly-undefined string
    (`undefined` prints as the literal string `undefined`). -/
def jsTemplate : Option String → String
  | some s => s
  | none => "undefined"

/-- JS `parseInt(s, 10)` restricted to the digit-prefix case; a string with no
    leading digits yields `NaN` in JS, conflated with `0` here (no claim
    distinguishes the two: the only consumer compares well-formed headers). -/
def jsParseIntNat (s : String) : Nat :=
  (s.data.takeWhile Char.isDigit).foldl (fun acc c => acc * 10 + (c.toNat - 48)) 0

/-- SQLite `LIKE '%pat%'` is case-insensitive over ASCII. -/
def likeContains (v pat : String) : Bool :=
  jsIncludes v.toLower pat.toLower

/-! ## Type model (src/backends/types.ts) -/

structure ZoteroCreator where
  creatorType : String
  firstName : Option String := none
  lastName : Option String := none
  name : Option String := none
deriving DecidableEq, Repr

structure ZoteroTag where
  tag : String
  type : Option Nat := none
deriving DecidableEq, Repr

structure ZoteroAttachment where
  key : String
  title : String
  linkMode : String
  contentType : Option String := none
  filename : Option String := none
  path : Option String := none
  parentItem : Option String := none
deriving DecidableEq, Repr

structure ZoteroNote where
  key : String
  note : String
  parentItem : Option String := none
  dateAdded : Option String := none
  dateModified : Option String := none
deriving DecidableEq, Repr

structure ZoteroAnnot where
  key : String
  annotationType : String
  annotationText : Option String := none
  annotationComment : Option String := none
  annotationColor : Option String := none
  annotationPageLabel : Option String := none
  annotationPosition : Option String := none
  parentItem : Option String := none
  dateAdded : Option String := none
  dateModified : Option String := none
deriving DecidableEq, Repr

/-- A materialized item. The many optional scalar fields of the TS interface
    (title, abstractNote, DOI, ...) are populated dynamically by string key in
    the source (`item[key] = value`); they are carried here as an association
    list `fields`, in assignment order. -/
structure ZoteroItem where
  key : String
  itemType : String
  version : Option Nat := none
  dateAdded : Option String := none
  dateModified : Option String := none
  fields : List (String × String) := []
  creators : List ZoteroCreator := []
  tags : List ZoteroTag := []
  collections : List String := []
  attachments : List ZoteroAttachment := []
  notes : List ZoteroNote := []
  annotations : List ZoteroAnnot := []
deriving DecidableEq, Repr

/-- Embeds `direction?: "asc" | "desc"`. -/
inductive SortDirection where
  | asc
  | desc
deriving DecidableEq, Repr

def SortDirection.toStr : SortDirection → String
  | .asc => "asc"
  | .desc => "desc"

structure SearchFilters where
  itemType : Option String := none
  tags : Option (List String) := none
  collectionKey : Option String := none
  sinceVersion : Option Nat := none
  sort : Option String := none
  direction : Option SortDirection := none
  limit : Option Nat := none
  start : Option Nat := none
deriving DecidableEq, Repr

structure SearchResult where
  items : List ZoteroItem
  totalResults : Nat
  hasMore : Bool
  nextStart : Nat
deriving DecidableEq, Repr

/-! ## Configuration (config.ts)

`loadConfig` reads the environment; the parts every claim depends on are the
numeric settings. `maxLimit` is the constant `100` (config.ts line 116) and
`defaultLimit` parses `ZOTERO_DEFAULT_LIMIT` with default 25. -/

structure ZoteroConfig where
  apiKey : Option String := none
  userId : Option String := none
  groupId : Option String := none
  apiBaseUrl : String := "https://api.zotero.org"
  defaultLimit : Nat := 25
  maxLimit : Nat := 100
deriving DecidableEq, Repr

/-- The constant assigned to `maxLimit` by `loadConfig`. -/
def loadConfigMaxLimit : Nat := 100

/-- Embeds `getLibraryPrefix` from config.ts: `groups/X` when a group id is set
    (JS truthiness), else `users/X` (an unset user id interpolates as the
    literal string `undefined`). -/
def getLibraryPfx (config : ZoteroConfig) : String :=
  if jsTruthyStr config.groupId then
    "groups/" ++ jsTemplate config.groupId
  else
    "users/" ++ jsTemplate config.userId

/-! ## Cache (cache.ts)

`Map` is embedded as an association list with unique keys: `Map.set` replaces
in place when the key is present, otherwise appends; `Map.delete` removes the
key. `Date.now()` is passed as an explicit `now : Nat` (milliseconds). -/

structure CacheEntry (α : Type) where
  value : α
  expires : Nat
deriving DecidableEq, Repr

structure Cache (α : Type) where
  store : List (String × CacheEntry α) := []
  ttl : Nat
deriving DecidableEq, Repr

/-- Constructor: `new Cache(ttlSeconds = 300)`. -/
def Cache.create (α : Type) (ttlSeconds : Nat := 300) : Cache α :=
  { store := [], ttl := ttlSeconds * 1000 }

/-- Embeds `Map.get`. -/
def storeGet (s : List (String × CacheEntry α)) (k : String) : Option (CacheEntry α) :=
  (s.find? (fun p => p.1 == k)).map Prod.snd

/-- Embeds `Map.set`: replace in place when present, else append. -/
def storeSet : List (String × CacheEntry α) → String → CacheEntry α → List (String × CacheEntry α)
  | [], k, e => [(k, e)]
  | p :: ps, k, e => if p.1 == k then (k, e) :: ps else p :: storeSet ps k e

/-- Embeds `Map.delete`. -/
def storeDelete (s : List (String × CacheEntry α)) (k : String) : List (String × CacheEntry α) :=
  s.filter (fun p => !(p.1 == k))

/-- Embeds `Cache.get`: lazy expiry — an entry whose deadline has passed is deleted
    and reported absent. Returns the value (if any) and the updated cache. -/
def Cache.get (c : Cache α) (key : String) (now : Nat) : Option α × Cache α :=
  match storeGet c.store key with
  | none => (none, c)
  | some entry =>
    if now > entry.expires then
      (none, { c with store := storeDelete c.store key })
    else
      (some entry.value, c)

/-- Embeds `Cache.set`: store the value with a fresh deadline `now + ttl`. -/
def Cache.set (c : Cache α) (key : String) (value : α) (now : Nat) : Cache α :=
  { c with store := storeSet c.store key { value := value, expires := now + c.ttl } }

/-- Embeds `Cache.has`: implemented by calling `get` and testing for presence; it
    therefore performs the same lazy eviction as `get`. -/
def Cache.has (c : Cache α) (key : String) (now : Nat) : Bool × Cache α :=
  let r := Cache.get c key now
  (r.1.isSome, r.2)

/-! ## Local SQLite database state (the tables read by local.ts)

Each table is a list of rows. Inner joins are embedded as nested-loop
products; `LEFT JOIN deletedItems ... WHERE di.itemID IS NULL` is an anti-join
against the deletion marker list. SQL row order is unspecified; queries are
determinized here by table order, and `ORDER BY` by a stable insertion sort. -/

structure ItemRow where
  itemID : Nat
  key : String
  itemTypeID : Nat
  version : Nat
  dateAdded : String
  dateModified : String
deriving DecidableEq, Repr

structure CreatorRow where
  creatorID : Nat
  firstName : Option String := none
  lastName : Option String := none
deriving DecidableEq, Repr

structure ItemCreatorRow where
  itemID : Nat
  creatorID : Nat
  creatorTypeID : Nat
  orderIndex : Nat
deriving DecidableEq, Repr

structure ItemTagRow where
  itemID : Nat
  tagID : Nat
  type : Nat
deriving DecidableEq, Repr

structure ItemDataRow where
  itemID : Nat
  fieldID : Nat
  valueID : Nat
deriving DecidableEq, Repr

structure CollectionRow where
  collectionID : Nat
  key : String
  collectionName : String
  parentCollectionID : Option Nat := none
  version : Nat := 0
deriving DecidableEq, Repr

structure NoteRow where
  itemID : Nat
  parentItemID : Option Nat := none
  note : String
deriving DecidableEq, Repr

structure AttachmentRow where
  itemID : Nat
  parentItemID : Option Nat := none
  contentType : Option String := none
  path : Option String := none
  linkMode : Nat
deriving DecidableEq, Repr

structure AnnotationRow where
  itemID : Nat
  parentItemID : Option Nat := none
  type : String
  text : Option String := none
  comment : Option String := none
  color : Option String := none
  pageLabel : Option String := none
  position : Option String := none
deriving DecidableEq, Repr

structure Db where
  items : List ItemRow := []
  itemTypes : List (Nat × String) := []
  fields : List (Nat × String) := []
  creatorTypes : List (Nat × String) := []
  deletedItems : List Nat := []
  itemData : List ItemDataRow := []
  itemDataValues : List (Nat × String) := []
  creators : List CreatorRow := []
  itemCreators : List ItemCreatorRow := []
  tags : List (Nat × String) := []
  itemTags : List ItemTagRow := []
  collections : List CollectionRow := []
  deletedCollections : List Nat := []
  collectionItems : List (Nat × Nat) := []
  itemNotes : List NoteRow := []
  itemAttachments : List AttachmentRow := []
  itemAnnotations : List AnnotationRow := []
deriving Repr

/-- Embeds `loadMappings` fills a record `CODE[id] = name` row by row, so for a
    duplicated id the later row wins; a record lookup with `|| fallback`. -/
def codeLookup (table : List (Nat × String)) (id : Nat) : Option String :=
  (table.reverse.find? (fun p => p.1 == id)).map Prod.snd

/-- Embeds `SELECT COUNT(DISTINCT ...)` / `SELECT DISTINCT`: first-occurrence
    dedup, computed with a seen-accumulator. -/
def sqlDistinctAux [BEq α] (seen : List α) : List α → List α
  | [] => []
  | x :: xs =>
    if seen.contains x then sqlDistinctAux seen xs
    else x :: sqlDistinctAux (x :: seen) xs

def sqlDistinct [BEq α] (l : List α) : List α := sqlDistinctAux [] l

/-- Stable insertion for `ORDER BY`. -/
def insertLe (le : α → α → Bool) (x : α) : List α → List α
  | [] => [x]
  | y :: ys => if le x y then x :: y :: ys else y :: insertLe le x ys

def sortByLe (le : α → α → Bool) : List α → List α
  | [] => []
  | x :: xs => insertLe le x (sortByLe le xs)

namespace LocalBackend

open ZoteroMCP

/-- Embeds `fieldNameToKey` from local.ts: the explicit lowercase-source-name to
    canonical-key table; unknown names pass through unchanged (via JS
    `mapping[...] || fieldName`). -/
def fieldNameToKey (fieldName : String) : String :=
  let mapping : List (String × String) :=
    [("title", "title"), ("abstractnote", "abstractNote"), ("date", "date"),
     ("url", "url"), ("accessdate", "accessDate"), ("language", "language"),
     ("publicationtitle", "publicationTitle"),
     ("journalabbreviation", "journalAbbreviation"), ("volume", "volume"),
     ("issue", "issue"), ("pages", "pages"), ("edition", "edition"),
     ("series", "series"), ("seriesnumber", "seriesNumber"), ("doi", "DOI"),
     ("isbn", "ISBN"), ("issn", "ISSN"), ("publisher", "publisher"),
     ("place", "place"), ("institution", "institution"),
     ("shorttitle", "shortTitle"), ("numpages", "numPages"),
     ("extra", "extra"), ("callnumber", "callNumber"), ("archive", "archive"),
     ("archivelocation", "archiveLocation"),
     ("librarycatalog", "libraryCatalog"), ("rights", "rights")]
  jsOrStr ((mapping.find? (fun p => p.1 == fieldName.toLower)).map Prod.snd) fieldName

/-- Embeds `loadItemFields`: itemData ⋈ itemDataValues ⋈ fields for one item, each
    value assigned onto the item under the canonical key. -/
def loadItemFields (db : Db) (itemId : Nat) : List (String × String) :=
  ((db.itemData.filter (fun d => d.itemID == itemId)).flatMap (fun d =>
    (db.itemDataValues.filter (fun v => v.1 == d.valueID)).flatMap (fun v =>
      (db.fields.filter (fun f => f.1 == d.fieldID)).map (fun f => (f.2, v.2))))).map
    (fun p => (fieldNameToKey p.1, p.2))

/-- Embeds `loadItemCreators`: itemCreators ⋈ creators ordered by `orderIndex`. -/
def loadItemCreators (db : Db) (itemId : Nat) : List ZoteroCreator :=
  let joined :=
    (db.itemCreators.filter (fun ic => ic.itemID == itemId)).flatMap (fun ic =>
      (db.creators.filter (fun c => c.creatorID == ic.creatorID)).map (fun c => (ic, c)))
  let sorted := sortByLe (fun a b => a.1.orderIndex ≤ b.1.orderIndex) joined
  sorted.map (fun p =>
    { creatorType := jsOrStr (codeLookup db.creatorTypes p.1.creatorTypeID) "author"
      firstName := jsUndefIfFalsy p.2.firstName
      lastName := jsUndefIfFalsy p.2.lastName
      name := if !(jsTruthyStr p.2.firstName) && jsTruthyStr p.2.lastName
              then p.2.lastName else none })

/-- Embeds `loadItemTags`: itemTags ⋈ tags. -/
def loadItemTags (db : Db) (itemId : Nat) : List ZoteroTag :=
  (db.itemTags.filter (fun it => it.itemID == itemId)).flatMap (fun it =>
    (db.tags.filter (fun t => t.1 == it.tagID)).map (fun t =>
      { tag := t.2, type := some it.type }))

/-- Embeds `loadItemCollections`: collectionItems ⋈ collections. -/
def loadItemCollections (db : Db) (itemId : Nat) : List String :=
  (db.collectionItems.filter (fun ci => ci.2 == itemId)).flatMap (fun ci =>
    (db.collections.filter (fun c => c.collectionID == ci.1)).map (fun c => c.key))

/-- Embeds `rowToItem` followed by the per-item loads performed by `searchItems` and
    `getItem` (`ITEM_TYPES[id] || "unknown"`). -/
def materializeRow (db : Db) (row : ItemRow) : ZoteroItem :=
  { key := row.key
    itemType := jsOrStr (codeLookup db.itemTypes row.itemTypeID) "unknown"
    version := some row.version
    dateAdded := some row.dateAdded
    dateModified := some row.dateModified
    fields := loadItemFields db row.itemID
    creators := loadItemCreators db row.itemID
    tags := loadItemTags db row.itemID
    collections := loadItemCollections db row.itemID }

/-- The excluded-type subquery: `itemTypeID IN (SELECT ... WHERE typeName IN
    ('attachment', 'note', 'annotation'))`. -/
def isExcludedType (db : Db) (itemTypeID : Nat) : Bool :=
  db.itemTypes.any (fun p =>
    p.1 == itemTypeID && (p.2 == "attachment" || p.2 == "note" || p.2 == "annotation"))

/-- The free-text subquery: any itemData value `LIKE %q%`, or any joined
    creator first/last name `LIKE %q%` (SQL `NULL LIKE` does not match). -/
def matchesQuery (db : Db) (itemID : Nat) (q : String) : Bool :=
  db.itemData.any (fun d =>
    d.itemID == itemID &&
    db.itemDataValues.any (fun v => v.1 == d.valueID && likeContains v.2 q)) ||
  db.itemCreators.any (fun ic =>
    ic.itemID == itemID &&
    db.creators.any (fun c =>
      c.creatorID == ic.creatorID &&
      ((match c.firstName with | some s => likeContains s q | none => false) ||
       (match c.lastName with | some s => likeContains s q | none => false))))

/-- The per-tag subquery: the item carries a tag with that exact name. -/
def hasTag (db : Db) (itemID : Nat) (tag : String) : Bool :=
  db.itemTags.any (fun it =>
    it.itemID == itemID && db.tags.any (fun t => t.1 == it.tagID && t.2 == tag))

/-- The collection-membership subquery. -/
def inCollection (db : Db) (itemID : Nat) (collectionKey : String) : Bool :=
  db.collectionItems.any (fun ci =>
    ci.2 == itemID &&
    db.collections.any (fun c => c.collectionID == ci.1 && c.key == collectionKey))

/-- The item-type filter: comma-split, trimmed names. -/
def matchesItemTypeFilter (db : Db) (itemTypeID : Nat) (spec : String) : Bool :=
  let types := (spec.splitOn ",").map String.trim
  db.itemTypes.any (fun p => p.1 == itemTypeID && types.contains p.2)

/-- The assembled WHERE clause of `LocalBackend.searchItems`. Conditions are
    appended only when the corresponding filter is JS-truthy (for `tags`,
    when the array is present; an empty array contributes no condition, which
    coincides with `List.all` over `[]`). `sinceVersion` is not consulted. -/
def searchPred (db : Db) (query : Option String) (filters : SearchFilters)
    (r : ItemRow) : Bool :=
  !(db.deletedItems.contains r.itemID) &&
  !(isExcludedType db r.itemTypeID) &&
  (if jsTruthyStr query then matchesQuery db r.itemID (jsTemplate query) else true) &&
  (match filters.itemType with
   | some t => if t != "" then matchesItemTypeFilter db r.itemTypeID t else true
   | none => true) &&
  (match filters.tags with
   | some ts => ts.all (hasTag db r.itemID)
   | none => true) &&
  (match filters.collectionKey with
   | some ck => if ck != "" then inCollection db r.itemID ck else true
   | none => true)

/-- Embeds `ORDER BY i.<col> <dir>`: the sort column is `dateModified` unless the
    caller names anything else (then `dateAdded`). -/
def rowSortKey (sortField : String) (r : ItemRow) : String :=
  if sortField == "dateModified" then r.dateModified else r.dateAdded

def rowLe (sortField : String) (dir : SortDirection) (a b : ItemRow) : Bool :=
  match dir with
  | .asc => (compare (rowSortKey sortField a) (rowSortKey sortField b)).isLE
  | .desc => (compare (rowSortKey sortField b) (rowSortKey sortField a)).isLE

/-- Embeds `LocalBackend.searchItems` (local.ts lines 312-414): filter, count the
    distinct survivors, sort, paginate with `LIMIT ? OFFSET ?`, materialize. -/
def searchItems (db : Db) (config : ZoteroConfig) (query : Option String := none)
    (filters : SearchFilters := {}) : SearchResult :=
  let limit := jsOrNat filters.limit config.defaultLimit
  let offset := jsOrNat filters.start 0
  let survivors := db.items.filter (searchPred db query filters)
  let totalResults := (sqlDistinct (survivors.map (fun r => r.itemID))).length
  let sortField := jsOrStr filters.sort "dateModified"
  let direction := (filters.direction).getD .desc
  let sorted := sortByLe (rowLe sortField direction) (sqlDistinct survivors)
  let page := (sorted.drop offset).take limit
  let items := page.map (materializeRow db)
  { items := items
    totalResults := totalResults
    hasMore := decide (offset + items.length < totalResults)
    nextStart := offset + items.length }

/-- The `SELECT itemID FROM items WHERE key = ?` lookup (no deletion filter). -/
def itemIdForKey (db : Db) (key : String) : Option Nat :=
  (db.items.find? (fun r => r.key == key)).map (fun r => r.itemID)

/-- Embeds `a.path?.replace(/^storage:/, "")`. -/
def stripStoragePrefixOpt (p : Option String) : Option String :=
  p.map (fun s => if s.startsWith "storage:" then s.drop 8 else s)

/-- The title subquery run per attachment (first row wins, as `.get`). -/
def attachmentTitle (db : Db) (childKey : String) : Option String :=
  (((db.items.filter (fun i => i.key == childKey)).flatMap (fun i =>
      (db.itemData.filter (fun d => d.itemID == i.itemID)).flatMap (fun d =>
        (db.itemDataValues.filter (fun v => v.1 == d.valueID)).flatMap (fun v =>
          (db.fields.filter (fun f => f.1 == d.fieldID && f.2 == "title")).map
            (fun _ => v.2))))).head?)

/-- Embeds `LocalBackend.getItemAttachments`, including the per-row title lookup,
    the `storage:` strip, the link-mode decode and the storage path join
    (`path.join` embedded as `/`-joining). -/
def getItemAttachments (db : Db) (storagePath : Option String) (key : String) :
    List ZoteroAttachment :=
  match itemIdForKey db key with
  | none => []
  | some pid =>
    let rows :=
      (db.itemAttachments.filter (fun a => a.parentItemID == some pid)).flatMap (fun a =>
        (db.items.filter (fun i =>
          i.itemID == a.itemID && !(db.deletedItems.contains i.itemID))).map
          (fun i => (i, a)))
    let linkModes := ["imported_file", "imported_url", "linked_file", "linked_url"]
    rows.map (fun p =>
      let childKey := p.1.key
      let filename := jsUndefIfFalsy (stripStoragePrefixOpt p.2.path)
      { key := childKey
        title := jsOrStr (attachmentTitle db childKey) (jsOrStr filename childKey)
        linkMode := jsOrStr (linkModes.get? p.2.linkMode) "imported_file"
        contentType := jsUndefIfFalsy p.2.contentType
        filename := filename
        path := match storagePath, filename with
                | some sp, some fn =>
                  if sp != "" && fn != "" then some (sp ++ "/" ++ childKey ++ "/" ++ fn)
                  else none
                | _, _ => none
        parentItem := some key })

/-- Embeds `LocalBackend.getItemNotes`. -/
def getItemNotes (db : Db) (key : String) : List ZoteroNote :=
  match itemIdForKey db key with
  | none => []
  | some pid =>
    (db.itemNotes.filter (fun n => n.parentItemID == some pid)).flatMap (fun n =>
      (db.items.filter (fun i =>
        i.itemID == n.itemID && !(db.deletedItems.contains i.itemID))).map (fun i =>
        { key := i.key
          note := n.note
          parentItem := some key
          dateAdded := some i.dateAdded
          dateModified := some i.dateModified }))

/-- Embeds `LocalBackend.getItemAnnotations`: restricted to the item's PDF
    attachments; annotations are children of the attachment. -/
def getItemAnnotations (db : Db) (storagePath : Option String) (key : String) :
    List ZoteroAnnot :=
  (getItemAttachments db storagePath key).flatMap (fun att =>
    if att.contentType == some "application/pdf" then
      match itemIdForKey db att.key with
      | none => []
      | some attId =>
        (db.itemAnnotations.filter (fun an => an.parentItemID == some attId)).flatMap
          (fun an =>
            (db.items.filter (fun i =>
              i.itemID == an.itemID && !(db.deletedItems.contains i.itemID))).map
              (fun i =>
                { key := i.key
                  annotationType := an.type
                  annotationText := jsUndefIfFalsy an.text
                  annotationComment := jsUndefIfFalsy an.comment
                  annotationColor := jsUndefIfFalsy an.color
                  annotationPageLabel := jsUndefIfFalsy an.pageLabel
                  annotationPosition := jsUndefIfFalsy an.position
                  parentItem := some att.key
                  dateAdded := some i.dateAdded
                  dateModified := some i.dateModified }))
    else [])

/-- Embeds `LocalBackend.getItem`: the row lookup anti-joins the deletion markers;
    a missing or soft-deleted key yields `none`; otherwise the item is
    materialized and, when requested, children are populated. -/
def getItem (db : Db) (storagePath : Option String) (key : String)
    (includeChildren : Bool := true) : Option ZoteroItem :=
  match db.items.find? (fun r => r.key == key && !(db.deletedItems.contains r.itemID)) with
  | none => none
  | some row =>
    let item := materializeRow db row
    if includeChildren then
      some { item with
             attachments := getItemAttachments db storagePath key
             notes := getItemNotes db key
             annotations := getItemAnnotations db storagePath key }
    else
      some item

/-- The recursive subcollection walk of `getCollectionItems` (depth-first,
    parent before children). The source recurses without an explicit bound;
    here the walk carries fuel, and any fuel at least the collection-table
    length exhausts an acyclic tree. -/
def subcollectionKeys (db : Db) : Nat → String → List String
  | 0, _ => []
  | fuel + 1, parentKey =>
    let subs := (db.collections.filter (fun c =>
      match c.parentCollectionID with
      | some pid =>
        db.collections.any (fun pc => pc.collectionID == pid && pc.key == parentKey)
      | none => false)).map (fun c => c.key)
    subs.flatMap (fun s => s :: subcollectionKeys db fuel s)

/-- Embeds `LocalBackend.getCollectionItems` (local.ts lines 549-580): the filters
    are overridden with the requested collection key; in the recursive case
    the transitive subcollection keys are collected into `allKeys` but — as in
    the source ("For now, we'll just use the main collection") — never used:
    the search always runs against the direct collection only. -/
def getCollectionItems (db : Db) (config : ZoteroConfig) (collectionKey : String)
    (recursive : Bool := false) (filters : SearchFilters := {}) : SearchResult :=
  let updatedFilters := { filters with collectionKey := some collectionKey }
  let _allKeys :=
    if recursive then collectionKey :: subcollectionKeys db db.collections.length collectionKey
    else [collectionKey]
  searchItems db config none updatedFilters

/-- Embeds `LocalBackend.getBibliography`: the fixed unsupported-capability message,
    for every key list and style. -/
def getBibliography (_keys : List String) (_style : String := "apa") : String :=
  "Bibliography generation requires Web API mode or citeproc-js integration."

end LocalBackend

/-! ## Web API backend (src/backends/web-api.ts)

The HTTP transport is embedded as an abstract server: a function from the
request (full URL path plus the query pairs appended by `URLSearchParams`, in
insertion order and without percent-encoding) to a response. Responses carry
the status information and the three headers the code reads, plus a body of
one of the wire shapes the code casts to. The static auth headers are fixed
per backend and influence no claim, so the server takes only the request. -/

/-- The wire shape of one item: top-level `key`/`version` and the `data`
    record, whose fields the code spreads over them (`{key, version, ...data}`
    — a key or version present in `data` therefore wins). Wire fields other
    than the ones below are carried as an association list. -/
structure ApiItemData where
  key : Option String := none
  version : Option Nat := none
  itemType : String
  dateModified : Option String := none
  fields : List (String × String) := []
deriving DecidableEq, Repr

structure ApiItemResponse where
  key : String
  version : Nat
  data : ApiItemData
deriving DecidableEq, Repr

inductive ApiBody where
  | one (item : ApiItemResponse)
  | many (items : List ApiItemResponse)
  | text (s : String)
deriving DecidableEq, Repr

structure WebResp where
  ok : Bool
  status : Nat
  statusText : String := ""
  retryAfter : Option String := none
  totalHeader : Option String := none
  link : Option String := none
  body : ApiBody := .many []
deriving DecidableEq, Repr

/-- A request: URL path and the query pairs, in append order. -/
structure WebReq where
  path : String
  qs : List (String × String) := []
deriving DecidableEq, Repr

def WebServer : Type := WebReq → WebResp

namespace WebAPIBackend

open ZoteroMCP

/-- The error message thrown by `request` for a non-ok response: the
    throttling message carries the advertised retry interval, every other
    failure carries the status and status text. -/
def requestErrMsg (r : WebResp) : String :=
  if r.status == 429 then
    "Rate limited. Retry after " ++ jsOrStr r.retryAfter "5" ++ " seconds."
  else
    "API request failed: " ++ toString r.status ++ " " ++ r.statusText

/-- Embeds the non-ok check inside `request`. -/
def checkResponse (r : WebResp) : Except String WebResp :=
  if r.ok then .ok r else .error (requestErrMsg r)

/-- Embeds `request`: perform the fetch and throw (as `Except.error`) on non-ok. -/
def request (server : WebServer) (config : ZoteroConfig) (req : WebReq) :
    Except String WebResp :=
  checkResponse (server { req with path := config.apiBaseUrl ++ req.path })

/-- The TS code casts the parsed JSON to the shape it expects; a body of a
    different shape is unreachable in the scenarios the claims exercise and
    is reported as a shape error here. -/
def expectMany : ApiBody → Except String (List ApiItemResponse)
  | .many l => .ok l
  | _ => .error "unexpected response body shape"

def expectOne : ApiBody → Except String ApiItemResponse
  | .one i => .ok i
  | _ => .error "unexpected response body shape"

/-- Embeds `mapApiItem`: merge top-level key/version with the data fields; the
    spread lets `data` override both. -/
def mapApiItem (apiItem : ApiItemResponse) : ZoteroItem :=
  { key := (apiItem.data.key).getD apiItem.key
    version := some ((apiItem.data.version).getD apiItem.version)
    itemType := apiItem.data.itemType
    dateModified := apiItem.data.dateModified
    fields := apiItem.data.fields }

/-- Embeds `buildQueryString`: append each pair whose value is defined, non-null
    and non-empty, in insertion order; numbers arrive already stringified. -/
def buildQueryString (params : List (String × Option String)) : List (String × String) :=
  params.filterMap (fun p =>
    match p.2 with
    | some v => if v != "" then some (p.1, v) else none
    | none => none)

/-- Embeds `fetchItemsWithTotal`: totals from the `Total-Results` header, `hasMore`
    from a `rel="next"` link relation, and `nextStart` set to the page length
    (the requested start offset is not consulted). -/
def fetchItemsWithTotal (server : WebServer) (config : ZoteroConfig) (req : WebReq) :
    Except String SearchResult :=
  match request server config req with
  | .error e => .error e
  | .ok r =>
    match expectMany r.body with
    | .error e => .error e
    | .ok body =>
      let items := body.map mapApiItem
      let totalResults := jsParseIntNat (jsOrStr r.totalHeader "0")
      let hasMore := jsIncludes (jsOrStr r.link "") "rel=\"next\""
      .ok { items := items
            totalResults := totalResults
            hasMore := hasMore
            nextStart := items.length }

/-- The params object built by `searchItems` before the endpoint choice:
    the five always-present entries in literal order, then the conditional
    ones in assignment order (`q`/`qmode`, `itemType`, `tag`). Multiple tags
    are joined into one `tag` value with `" || "`. -/
def searchParams (config : ZoteroConfig) (query : Option String)
    (filters : SearchFilters) : List (String × Option String) :=
  [("format", some "json"),
   ("limit", some (toString (jsOrNat filters.limit config.defaultLimit))),
   ("start", some (toString (jsOrNat filters.start 0))),
   ("sort", some (jsOrStr filters.sort "dateModified")),
   ("direction", some (SortDirection.toStr ((filters.direction).getD .desc)))] ++
  (if jsTruthyStr query then [("q", query), ("qmode", some "everything")] else []) ++
  (match filters.itemType with
   | some t => if t != "" then [("itemType", some t)] else []
   | none => []) ++
  (match filters.tags with
   | some ts =>
     if ts.length > 0 then [("tag", some (String.intercalate " || " ts))] else []
   | none => [])

/-- Embeds `WebAPIBackend.searchItems` (web-api.ts lines 102-136): a truthy
    collection filter reroutes to the collection items endpoint (and skips
    the `since` parameter); otherwise `since` is appended when the version
    floor is defined and the top-level items endpoint is queried. -/
def searchItems (server : WebServer) (config : ZoteroConfig)
    (query : Option String := none) (filters : SearchFilters := {}) :
    Except String SearchResult :=
  let params := searchParams config query filters
  if jsTruthyStr filters.collectionKey then
    fetchItemsWithTotal server config
      { path := "/" ++ getLibraryPfx config ++ "/collections/" ++
                jsTemplate filters.collectionKey ++ "/items"
        qs := buildQueryString params }
  else
    let params := params ++
      (match filters.sinceVersion with
       | some v => [("since", some (toString v))]
       | none => [])
    fetchItemsWithTotal server config
      { path := "/" ++ getLibraryPfx config ++ "/items/top"
        qs := buildQueryString params }

/-- The cast `children.filter(...) as unknown as ZoteroAttachment[]` reads the
    same-named wire fields off the item object; fields the wire did not
    supply come out absent/empty. -/
def castAttachment (c : ZoteroItem) : ZoteroAttachment :=
  { key := c.key
    title := jsOrStr ((c.fields.find? (fun p => p.1 == "title")).map Prod.snd) ""
    linkMode := jsOrStr ((c.fields.find? (fun p => p.1 == "linkMode")).map Prod.snd) ""
    contentType := (c.fields.find? (fun p => p.1 == "contentType")).map Prod.snd }

def castNote (c : ZoteroItem) : ZoteroNote :=
  { key := c.key
    note := jsOrStr ((c.fields.find? (fun p => p.1 == "note")).map Prod.snd) ""
    dateModified := c.dateModified }

def castAnnot (c : ZoteroItem) : ZoteroAnnot :=
  { key := c.key
    annotationType :=
      jsOrStr ((c.fields.find? (fun p => p.1 == "annotationType")).map Prod.snd) ""
    dateModified := c.dateModified }

/-- The body of `getItem`'s `try` block: fetch the item, then (when asked)
    fetch its children and split them by item type. -/
def getItemCore (server : WebServer) (config : ZoteroConfig) (key : String)
    (includeChildren : Bool) : Except String (Option ZoteroItem) :=
  match request server config
    { path := "/" ++ getLibraryPfx config ++ "/items/" ++ key } with
  | .error e => .error e
  | .ok r =>
    match expectOne r.body with
    | .error e => .error e
    | .ok apiItem =>
      let item := mapApiItem apiItem
      if includeChildren then
        match request server config
          { path := "/" ++ getLibraryPfx config ++ "/items/" ++ key ++ "/children" } with
        | .error e => .error e
        | .ok rc =>
          match expectMany rc.body with
          | .error e => .error e
          | .ok capi =>
            let children := capi.map mapApiItem
            .ok (some { item with
                        attachments :=
                          (children.filter (fun c => c.itemType == "attachment")).map
                            castAttachment
                        notes :=
                          (children.filter (fun c => c.itemType == "note")).map castNote
                        annotations :=
                          (children.filter (fun c => c.itemType == "annotation")).map
                            castAnnot })
      else
        .ok (some item)

/-- Embeds `WebAPIBackend.getItem` (web-api.ts lines 155-187): any error whose
    message contains the substring `404` is mapped to not-found; every other
    error is rethrown. -/
def getItem (server : WebServer) (config : ZoteroConfig) (key : String)
    (includeChildren : Bool := true) : Except String (Option ZoteroItem) :=
  match getItemCore server config key includeChildren with
  | .ok v => .ok v
  | .error e => if jsIncludes e "404" then .ok none else .error e

/-- The endpoint chosen by `WebAPIBackend.getCollectionItems`: the direct
    `/items/top` endpoint by default; `recursive` merely switches to the
    collection's flat `/items` endpoint in a single request — no subtree
    aggregation happens. -/
def collectionItemsPath (config : ZoteroConfig) (collectionKey : String)
    (recursive : Bool) : String :=
  if recursive then
    "/" ++ getLibraryPfx config ++ "/collections/" ++ collectionKey ++ "/items"
  else
    "/" ++ getLibraryPfx config ++ "/collections/" ++ collectionKey ++ "/items/top"

/-- Embeds `WebAPIBackend.getCollectionItems` (web-api.ts lines 253-275). -/
def getCollectionItems (server : WebServer) (config : ZoteroConfig)
    (collectionKey : String) (recursive : Bool := false)
    (filters : SearchFilters := {}) : Except String SearchResult :=
  let params : List (String × Option String) :=
    [("format", some "json"),
     ("limit", some (toString (jsOrNat filters.limit config.defaultLimit))),
     ("start", some (toString (jsOrNat filters.start 0))),
     ("sort", some (jsOrStr filters.sort "dateModified")),
     ("direction", some (SortDirection.toStr ((filters.direction).getD .desc)))]
  fetchItemsWithTotal server config
    { path := collectionItemsPath config collectionKey recursive
      qs := buildQueryString params }

end WebAPIBackend

/-! ## Concrete scenarios -/

/-- A configuration as `loadConfig` produces it with only a user id set:
    default limit 25, maximum limit 100. -/
def cfgA : ZoteroConfig := { userId := some "1" }

/-- A library with collection `AAAA`, its child collection `BBBB`, and a
    single article `XXXX` that belongs only to `BBBB`. -/
def dbC1 : Db :=
  { items := [{ itemID := 1, key := "XXXX", itemTypeID := 1, version := 1,
                dateAdded := "2024-01-01 00:00:00", dateModified := "2024-01-02 00:00:00" }]
    itemTypes := [(1, "journalArticle"), (2, "attachment"), (3, "note"), (4, "annotation")]
    collections := [{ collectionID := 10, key := "AAAA", collectionName := "Parent" },
                    { collectionID := 11, key := "BBBB", collectionName := "Child",
                      parentCollectionID := some 10 }]
    collectionItems := [(11, 1)] }

/-- A library with item `K1` tagged `alpha` and item `K2` tagged `alpha` and
    `beta`. -/
def dbC2 : Db :=
  { items := [{ itemID := 1, key := "K1", itemTypeID := 1, version := 1,
                dateAdded := "2024-01-01 00:00:00", dateModified := "2024-01-01 00:00:00" },
              { itemID := 2, key := "K2", itemTypeID := 1, version := 1,
                dateAdded := "2024-01-01 00:00:00", dateModified := "2024-01-01 00:00:00" }]
    itemTypes := [(1, "journalArticle")]
    tags := [(100, "alpha"), (101, "beta")]
    itemTags := [{ itemID := 1, tagID := 100, type := 0 },
                 { itemID := 2, tagID := 100, type := 0 },
                 { itemID := 2, tagID := 101, type := 0 }] }

/-- A library with 101 live articles (more than the configured maximum page
    size of 100). -/
def dbC4 : Db :=
  { items := (List.range 101).map (fun i =>
      { itemID := i, key := "K" ++ toString i, itemTypeID := 1, version := 1,
        dateAdded := "2024-01-01 00:00:00", dateModified := "2024-01-01 00:00:00" })
    itemTypes := [(1, "journalArticle")] }

/-- A library whose only item `DEL1` is in the deletion marker table. -/
def dbC5 : Db :=
  { items := [{ itemID := 1, key := "DEL1", itemTypeID := 1, version := 1,
                dateAdded := "2024-01-01 00:00:00", dateModified := "2024-01-01 00:00:00" }]
    itemTypes := [(1, "journalArticle")]
    deletedItems := [1] }

/-- Two wire items of a remote page. -/
def apiW1 : ApiItemResponse := { key := "W1", version := 3, data := { itemType := "journalArticle" } }

def apiW2 : ApiItemResponse := { key := "W2", version := 4, data := { itemType := "book" } }

/-- A successful remote page response: two items, `Total-Results: 5` and a
    `rel="next"` link relation. -/
def respC3 : WebResp :=
  { ok := true, status := 200, totalHeader := some "5",
    link := some "<https://api.zotero.org/x?start=5>; rel=\"next\"",
    body := .many [apiW1, apiW2] }

def serverC3 : WebServer := fun _ => respC3

/-- The result the embedded remote search produces from `respC3`. -/
def resC3 : SearchResult :=
  { items := [{ key := "W1", itemType := "journalArticle", version := some 3 },
              { key := "W2", itemType := "book", version := some 4 }]
    totalResults := 5
    hasMore := true
    nextStart := 2 }

/-- A plain not-found response. -/
def resp404 : WebResp := { ok := false, status := 404, statusText := "Not Found" }

/-- A throttling response whose advertised retry interval is 404 seconds. -/
def resp429 : WebResp :=
  { ok := false, status := 429, statusText := "Too Many Requests", retryAfter := some "404" }

/-- A server-side failure response. -/
def resp500 : WebResp := { ok := false, status := 500, statusText := "Internal Server Error" }

/-- A cache holding one entry for key `k` whose deadline (10) has passed. -/
def staleCacheC9 : Cache Nat := { store := [("k", { value := 7, expires := 10 })], ttl := 300000 }

/-! ## Helper lemmas -/

theorem strData_append (a b : String) : (a ++ b).data = a.data ++ b.data := by
  cases a; cases b; rfl

theorem storeGet_storeSet_self {α : Type} (s : List (String × CacheEntry α)) (k : String)
    (e : CacheEntry α) : storeGet (storeSet s k e) k = some e := by
  induction s with
  | nil => simp [storeSet, storeGet]
  | cons p ps ih =>
    cases hpk : (p.1 == k) with
    | true => simp [storeSet, hpk, storeGet]
    | false => simpa [storeSet, hpk, storeGet] using ih

theorem storeGet_storeDelete_self {α : Type} (s : List (String × CacheEntry α)) (k : String) :
    storeGet (storeDelete s k) k = none := by
  induction s with
  | nil => rfl
  | cons p ps ih =>
    cases hpk : (p.1 == k) with
    | true => simp [storeDelete, hpk, storeGet]
    | false => simp [storeDelete, hpk, storeGet]

theorem jsIncludes_requestErrMsg_404 (r : WebResp) (h : r.status = 404) :
    jsIncludes (WebAPIBackend.requestErrMsg r) "404" = true := by
  have hmsg : WebAPIBackend.requestErrMsg r =
      "API request failed: " ++ toString (404 : Nat) ++ " " ++ r.statusText := by
    unfold WebAPIBackend.requestErrMsg
    rw [h]
    rfl
  rw [hmsg]
  apply decide_eq_true
  refine ⟨"API request failed: ".data, (" " ++ r.statusText).data, ?_⟩
  have ht : toString (404 : Nat) = "404" := rfl
  rw [ht]
  simp [strData_append, List.append_assoc]

theorem getItemCore_const_notOk (resp : WebResp) (config : ZoteroConfig) (key : String)
    (includeChildren : Bool) (hok : resp.ok = false) :
    WebAPIBackend.getItemCore (fun _ => resp) config key includeChildren =
      .error (WebAPIBackend.requestErrMsg resp) := by
  unfold WebAPIBackend.getItemCore WebAPIBackend.request WebAPIBackend.checkResponse
  simp [hok]

theorem fetchItemsWithTotal_ok_shape (server : WebServer) (config : ZoteroConfig)
    (req : WebReq) (r : SearchResult)
    (h : WebAPIBackend.fetchItemsWithTotal server config req = .ok r) :
    r.nextStart = r.items.length ∧
    r.hasMore =
      jsIncludes (jsOrStr (server { req with path := config.apiBaseUrl ++ req.path }).link "")
        "rel=\"next\"" := by
  unfold WebAPIBackend.fetchItemsWithTotal WebAPIBackend.request
    WebAPIBackend.checkResponse at h
  cases hok : (server { req with path := config.apiBaseUrl ++ req.path }).ok with
  | false => rw [hok] at h; simp at h
  | true =>
    rw [hok] at h
    simp only [if_true] at h
    cases hbody : (server { req with path := config.apiBaseUrl ++ req.path }).body with
    | one i => rw [hbody] at h; simp [WebAPIBackend.expectMany] at h
    | text s => rw [hbody] at h; simp [WebAPIBackend.expectMany] at h
    | many l =>
      rw [hbody] at h
      simp only [WebAPIBackend.expectMany] at h
      cases h
      exact ⟨rfl, rfl⟩

/-! ## Claim theorems -/

/-- C1: on the Local backend, `getCollectionItems` with `recursive := true`
    nonetheless returns exactly the direct collection's items. In `dbC1` the
    walk does discover the child collection `BBBB`, and the item `XXXX` is in
    `BBBB`, yet the recursive query of `AAAA` returns no items — and on the
    Remote backend, `recursive` merely switches the endpoint to the
    collection's flat `/items` listing in a single request. The claim that
    recursive retrieval includes all transitive sub-collection items
    (strictly containing the direct result when a sub-collection has items)
    is therefore violated by the code. -/
theorem c1_local_recursive_equals_direct :
    LocalBackend.getCollectionItems dbC1 cfgA "AAAA" true =
      LocalBackend.getCollectionItems dbC1 cfgA "AAAA" false ∧
    (LocalBackend.getCollectionItems dbC1 cfgA "AAAA" true).items = [] ∧
    LocalBackend.subcollectionKeys dbC1 dbC1.collections.length "AAAA" = ["BBBB"] ∧
    (LocalBackend.searchItems dbC1 cfgA none { collectionKey := some "BBBB" }).items.map
      (fun i => i.key) = ["XXXX"] ∧
    WebAPIBackend.collectionItemsPath cfgA "AAAA" true = "/users/1/collections/AAAA/items" :=
  ⟨rfl, rfl, rfl, rfl, rfl⟩

/-- C2: the Remote backend serializes a multi-tag filter into a single `tag`
    query parameter joining the tags with `" || "` (the Zotero API's
    any-of-these syntax) instead of one parameter per tag, so AND semantics
    is violated there; the Local backend does implement AND (only `K2`,
    which carries both tags, matches), and a single unmatched tag yields an
    empty result with `totalResults = 0`. -/
theorem c2_remote_single_or_tag_param :
    WebAPIBackend.buildQueryString
        (WebAPIBackend.searchParams cfgA none { tags := some ["alpha", "beta"] }) =
      [("format", "json"), ("limit", "25"), ("start", "0"), ("sort", "dateModified"),
       ("direction", "desc"), ("tag", "alpha || beta")] ∧
    (LocalBackend.searchItems dbC2 cfgA none { tags := some ["alpha", "beta"] }).items.map
      (fun i => i.key) = ["K2"] ∧
    (LocalBackend.searchItems dbC2 cfgA none { tags := some ["nope"] }).totalResults = 0 ∧
    (LocalBackend.searchItems dbC2 cfgA none { tags := some ["nope"] }).items = [] :=
  ⟨rfl, rfl, rfl, rfl⟩

/-- C3 counterexample: a Remote search with `start := 3` whose response page
    has 2 items reports `nextStart = 2`, not `3 + 2`: the claimed invariant
    `nextStart == offset + items.length` fails on the Remote backend. -/
theorem c3_remote_nextstart_ignores_offset :
    WebAPIBackend.searchItems serverC3 cfgA none { start := some 3 } = .ok resC3 ∧
    resC3.nextStart ≠ jsOrNat (some 3) 0 + resC3.items.length :=
  ⟨rfl, by decide⟩

/-- C3 amended: the pagination invariant holds on the Local backend
    (`nextStart = offset + items.length` and `hasMore = (nextStart <
    totalResults)`); on the Remote backend every successful fetch instead has
    `nextStart = items.length` (the offset is not consulted) and `hasMore`
    reflecting the presence of a `rel="next"` link relation header. -/
theorem c3_pagination_amended :
    (∀ (db : Db) (config : ZoteroConfig) (query : Option String) (filters : SearchFilters),
      (LocalBackend.searchItems db config query filters).nextStart =
        jsOrNat filters.start 0 +
          (LocalBackend.searchItems db config query filters).items.length ∧
      (LocalBackend.searchItems db config query filters).hasMore =
        decide ((LocalBackend.searchItems db config query filters).nextStart <
          (LocalBackend.searchItems db config query filters).totalResults)) ∧
    (∀ (server : WebServer) (config : ZoteroConfig) (req : WebReq) (r : SearchResult),
      WebAPIBackend.fetchItemsWithTotal server config req = .ok r →
      r.nextStart = r.items.length ∧
      r.hasMore =
        jsIncludes (jsOrStr (server { req with path := config.apiBaseUrl ++ req.path }).link "")
          "rel=\"next\"") :=
  ⟨fun _ _ _ _ => ⟨rfl, rfl⟩, fetchItemsWithTotal_ok_shape⟩

/-- C3 amended, witnessed at the concrete page `respC3`. -/
theorem c3_pagination_amended_witness :
    resC3.nextStart = resC3.items.length ∧
    resC3.hasMore =
      jsIncludes
        (jsOrStr (serverC3 { path := cfgA.apiBaseUrl ++ "/x", qs := [] }).link "")
        "rel=\"next\"" :=
  c3_pagination_amended.2 serverC3 cfgA { path := "/x" } resC3 rfl

/-- C4 counterexample: with the loaded configuration (maximum limit 100) a
    caller-supplied limit of 150 is not clamped: the Local backend returns a
    page of 101 items, and the Remote backend sends `limit=150` on the wire. -/
theorem c4_limit_unclamped_counterexample :
    (LocalBackend.searchItems dbC4 cfgA none { limit := some 150 }).items.length = 101 ∧
    ¬(101 ≤ cfgA.maxLimit) ∧
    (WebAPIBackend.buildQueryString
        (WebAPIBackend.searchParams cfgA none { limit := some 150 })).lookup "limit" =
      some "150" ∧
    cfgA.maxLimit = loadConfigMaxLimit :=
  ⟨rfl, by decide, rfl, rfl⟩

/-- C4 amended: neither backend clamps to `maxLimit`; the effective page size
    is bounded only by the caller's limit (with the configured default
    substituted for a falsy one): the Local page never exceeds that value,
    and the Remote wire request carries exactly that value. -/
theorem c4_effective_limit_amended :
    (∀ (db : Db) (config : ZoteroConfig) (query : Option String) (filters : SearchFilters),
      (LocalBackend.searchItems db config query filters).items.length ≤
        jsOrNat filters.limit config.defaultLimit) ∧
    (∀ (config : ZoteroConfig) (query : Option String) (filters : SearchFilters),
      (WebAPIBackend.searchParams config query filters).lookup "limit" =
        some (some (toString (jsOrNat filters.limit config.defaultLimit)))) := by
  constructor
  · intro db config query filters
    simp only [LocalBackend.searchItems, List.length_map, List.length_take]
    exact Nat.min_le_left _ _
  · intro config query filters
    rfl

/-- C5: a soft-deleted key is reported as not found on both backends: on the
    Local backend a key all of whose rows are in the deletion marker table
    yields `none`, and on the Remote backend a key the service answers with
    status 404 yields `Except.ok none` rather than an error. -/
theorem c5_soft_deleted_not_found :
    (∀ (db : Db) (storagePath : Option String) (key : String) (includeChildren : Bool),
      (∀ r ∈ db.items, r.key = key → r.itemID ∈ db.deletedItems) →
      LocalBackend.getItem db storagePath key includeChildren = none) ∧
    (∀ (resp : WebResp) (config : ZoteroConfig) (key : String) (includeChildren : Bool),
      resp.ok = false → resp.status = 404 →
      WebAPIBackend.getItem (fun _ => resp) config key includeChildren = .ok none) := by
  constructor
  · intro db storagePath key includeChildren h
    unfold LocalBackend.getItem
    have hfind : db.items.find?
        (fun r => r.key == key && !(db.deletedItems.contains r.itemID)) = none := by
      apply List.find?_eq_none.mpr
      intro r hr hpr
      simp only [Bool.and_eq_true, beq_iff_eq, Bool.not_eq_true'] at hpr
      have hmem := h r hr hpr.1
      have : db.deletedItems.contains r.itemID = true := by simpa using hmem
      rw [this] at hpr
      exact absurd hpr.2 (by simp)
    rw [hfind]
  · intro resp config key includeChildren hok h404
    unfold WebAPIBackend.getItem
    rw [getItemCore_const_notOk resp config key includeChildren hok]
    simp [jsIncludes_requestErrMsg_404 resp h404]

/-- C5 witnessed: the concrete deleted item `DEL1` and a concrete 404. -/
theorem c5_soft_deleted_not_found_witness :
    LocalBackend.getItem dbC5 none "DEL1" true = none ∧
    WebAPIBackend.getItem (fun _ => resp404) cfgA "NOPE" true = .ok none :=
  ⟨c5_soft_deleted_not_found.1 dbC5 none "DEL1" true (by decide),
   c5_soft_deleted_not_found.2 resp404 cfgA "NOPE" true rfl rfl⟩

/-- C6: the Local backend's bibliography operation returns the one fixed
    unsupported-capability message for every key list and style, and being a
    total function it never raises. -/
theorem c6_bibliography_fixed_message :
    ∀ (keys : List String) (style : String),
      LocalBackend.getBibliography keys style =
        "Bibliography generation requires Web API mode or citeproc-js integration." :=
  fun _ _ => rfl

/-- C7: cache round-trip. Setting `k` at time `t` and reading it back at `t`
    yields the value; once more than the TTL has elapsed, reading yields
    absent and evicts the entry (lazy expiry); and each `set` stamps the
    entry with the fresh deadline `t + ttl`, refreshing the key's expiry
    regardless of any earlier entry. -/
theorem c7_cache_roundtrip_expiry {α : Type} (c : Cache α) (k : String) (v : α)
    (t tLater : Nat) (hexp : tLater > t + c.ttl) :
    (Cache.get (Cache.set c k v t) k t).1 = some v ∧
    (Cache.get (Cache.set c k v t) k tLater).1 = none ∧
    (Cache.get (Cache.set c k v t) k tLater).2.store =
      storeDelete (Cache.set c k v t).store k ∧
    storeGet ((Cache.get (Cache.set c k v t) k tLater).2.store) k = none ∧
    storeGet (Cache.set c k v t).store k = some { value := v, expires := t + c.ttl } := by
  have hget : storeGet (Cache.set c k v t).store k =
      some { value := v, expires := t + c.ttl } :=
    storeGet_storeSet_self c.store k _
  refine ⟨?_, ?_, ?_, ?_, hget⟩
  · simp only [Cache.get, hget]
    rw [if_neg (by omega)]
  · simp only [Cache.get, hget]
    rw [if_pos hexp]
  · simp only [Cache.get, hget]
    rw [if_pos hexp]
  · simp only [Cache.get, hget]
    rw [if_pos hexp]
    exact storeGet_storeDelete_self _ _

/-- C7 witnessed: a 300-second cache, set at 0, read at 0 and at 300001 ms. -/
theorem c7_cache_roundtrip_expiry_witness :
    (Cache.get (Cache.set (Cache.create Nat 300) "k" 7 0) "k" 0).1 = some 7 ∧
    (Cache.get (Cache.set (Cache.create Nat 300) "k" 7 0) "k" 300001).1 = none ∧
    (Cache.get (Cache.set (Cache.create Nat 300) "k" 7 0) "k" 300001).2.store =
      storeDelete (Cache.set (Cache.create Nat 300) "k" 7 0).store "k" ∧
    storeGet ((Cache.get (Cache.set (Cache.create Nat 300) "k" 7 0) "k" 300001).2.store)
      "k" = none ∧
    storeGet (Cache.set (Cache.create Nat 300) "k" 7 0).store "k" =
      some { value := 7, expires := 0 + (Cache.create Nat 300).ttl } :=
  c7_cache_roundtrip_expiry (Cache.create Nat 300) "k" 7 0 300001 (by decide)

/-- C8 counterexample: a 429 response advertising a retry interval of 404
    seconds produces the error message "Rate limited. Retry after 404
    seconds.", which contains the substring 404, so `getItem` swallows it
    and returns not-found instead of propagating the throttling error —
    refuting the claim that every non-2xx status other than 404 propagates. -/
theorem c8_429_retry_after_404_counterexample :
    WebAPIBackend.getItem (fun _ => resp429) cfgA "KEY1" true = .ok none ∧
    resp429.status ≠ 404 :=
  ⟨rfl, by decide⟩

/-- C8 amended: for a failing single-item fetch the code matches on the
    thrown message, not the status: the result is not-found exactly when the
    message contains the substring 404 (true in particular for every actual
    404), and the error propagated otherwise is the request error message,
    which carries the status — for 429 the throttling text with the
    advertised retry interval. -/
theorem c8_error_mapping_amended :
    (∀ (resp : WebResp) (config : ZoteroConfig) (key : String) (includeChildren : Bool),
      resp.ok = false →
      WebAPIBackend.getItem (fun _ => resp) config key includeChildren =
        (if jsIncludes (WebAPIBackend.requestErrMsg resp) "404" then .ok none
         else .error (WebAPIBackend.requestErrMsg resp))) ∧
    (∀ (resp : WebResp) (config : ZoteroConfig) (key : String) (includeChildren : Bool),
      resp.ok = false → resp.status = 404 →
      WebAPIBackend.getItem (fun _ => resp) config key includeChildren = .ok none) ∧
    (∀ resp : WebResp, resp.status = 429 →
      WebAPIBackend.requestErrMsg resp =
        "Rate limited. Retry after " ++ jsOrStr resp.retryAfter "5" ++ " seconds.") := by
  refine ⟨?_, ?_, ?_⟩
  · intro resp config key includeChildren hok
    unfold WebAPIBackend.getItem
    rw [getItemCore_const_notOk resp config key includeChildren hok]
  · intro resp config key includeChildren hok h404
    unfold WebAPIBackend.getItem
    rw [getItemCore_const_notOk resp config key includeChildren hok]
    simp [jsIncludes_requestErrMsg_404 resp h404]
  · intro resp h429
    unfold WebAPIBackend.requestErrMsg
    rw [h429]
    rfl

/-- C8 amended, witnessed at a 500, a 404 and a 429 response. -/
theorem c8_error_mapping_amended_witness :
    WebAPIBackend.getItem (fun _ => resp500) cfgA "KEY1" true =
      (if jsIncludes (WebAPIBackend.requestErrMsg resp500) "404" then .ok none
       else .error (WebAPIBackend.requestErrMsg resp500)) ∧
    WebAPIBackend.getItem (fun _ => resp404) cfgA "KEY1" true = .ok none ∧
    WebAPIBackend.requestErrMsg resp429 =
      "Rate limited. Retry after " ++ jsOrStr resp429.retryAfter "5" ++ " seconds." :=
  ⟨c8_error_mapping_amended.1 resp500 cfgA "KEY1" true rfl,
   c8_error_mapping_amended.2.1 resp404 cfgA "KEY1" true rfl rfl,
   c8_error_mapping_amended.2.2 resp429 rfl⟩

/-- C9: `has` is `get` followed by a presence test: its boolean equals
    `isSome` of what `get` returns, its state effect is identical to `get`'s,
    and in particular invoking it on a key whose TTL has elapsed deletes that
    entry (the same lazy eviction as `get`). -/
theorem c9_has_matches_get {α : Type} (c : Cache α) (k : String) (t : Nat) :
    (Cache.has c k t).1 = ((Cache.get c k t).1).isSome ∧
    (Cache.has c k t).2 = (Cache.get c k t).2 ∧
    (∀ e, storeGet c.store k = some e → t > e.expires →
      (Cache.has c k t).2.store = storeDelete c.store k ∧
      storeGet ((Cache.has c k t).2.store) k = none) := by
  refine ⟨rfl, rfl, ?_⟩
  intro e he ht
  constructor
  · simp only [Cache.has, Cache.get, he]
    rw [if_pos ht]
  · simp only [Cache.has, Cache.get, he]
    rw [if_pos ht]
    exact storeGet_storeDelete_self _ _

/-- C9 witnessed on a cache whose single entry for `k` is stale at `t = 11`. -/
theorem c9_has_matches_get_witness :
    (Cache.has staleCacheC9 "k" 11).1 = ((Cache.get staleCacheC9 "k" 11).1).isSome ∧
    (Cache.has staleCacheC9 "k" 11).2.store = storeDelete staleCacheC9.store "k" ∧
    storeGet ((Cache.has staleCacheC9 "k" 11).2.store) "k" = none :=
  ⟨(c9_has_matches_get staleCacheC9 "k" 11).1,
   ((c9_has_matches_get staleCacheC9 "k" 11).2.2 { value := 7, expires := 10 } rfl
     (by decide)).1,
   ((c9_has_matches_get staleCacheC9 "k" 11).2.2 { value := 7, expires := 10 } rfl
     (by decide)).2⟩

/-- C10: a caller-supplied `limit` of 0 is falsy, so both backends substitute
    the configured default exactly as if no limit were given; likewise
    `start := 0` is indistinguishable from omitting `start` (whose fallback
    is 0 anyway). -/
theorem c10_zero_limit_start_as_absent :
    ∀ (db : Db) (config : ZoteroConfig) (query : Option String) (filters : SearchFilters)
      (server : WebServer),
      LocalBackend.searchItems db config query { filters with limit := some 0 } =
        LocalBackend.searchItems db config query { filters with limit := none } ∧
      LocalBackend.searchItems db config query { filters with start := some 0 } =
        LocalBackend.searchItems db config query { filters with start := none } ∧
      WebAPIBackend.searchItems server config query { filters with limit := some 0 } =
        WebAPIBackend.searchItems server config query { filters with limit := none } ∧
      WebAPIBackend.searchItems server config query { filters with start := some 0 } =
        WebAPIBackend.searchItems server config query { filters with start := none } :=
  fun _ _ _ _ _ => ⟨rfl, rfl, rfl, rfl⟩

end ZoteroMCP
